import Mathlib

/-!
Verification of the FIFI scoring-and-sizing core.

The computational core of the repository (`fifi_app`) is embedded shallowly
over exact rationals `ℚ`: Python floats become `ℚ`, pandas Series become
`List ℚ` with rolling operations expressed positionally, `Optional` fields
become `Option ℚ`, and a raised `ValueError` becomes `Except.error`.
IEEE special values (`inf`, `NaN`) produced by float division are resolved
into the branch structure that the surrounding code (`fillna`) gives them;
each such spot is documented at its definition.

Source modules embedded: `risk.py`, `technical.py`, `fundamental.py`,
`sentiment.py`, `scoring.py`, and the weight validator from `config.py`.
-/

/-- From `config.py`, class `RiskConfig`: risk management parameters.
Pydantic range validation (each field in [0,1]) belongs to the configuration
loader, not to the sizing computation, so the fields are plain rationals. -/
structure RiskConfig where
  max_position_size_pct : ℚ
  max_daily_loss_pct : ℚ
  stop_loss_pct : ℚ
  take_profit_pct : ℚ
  deriving DecidableEq

/-- From `risk.py`, dataclass `PositionSizingResult`. -/
structure PositionSizingResult where
  capital_at_risk : ℚ
  position_size : ℚ
  stop_loss_price : ℚ
  take_profit_price : ℚ
  deriving DecidableEq

/-- `true` exactly on the `Except.error` constructor (a raised Python error). -/
def isErr {ε α : Type} : Except ε α → Bool
  | Except.error _ => true
  | Except.ok _ => false

/-- From `risk.py`, `compute_position_size`: capital-at-risk, stop-loss and
take-profit prices, and a position size capped by both the risk budget and
affordability.  Raises (`Except.error`) exactly when `risk_per_unit ≤ 0`.
In the non-error path both divisors are provably nonzero in the Python
code (`risk_per_unit > 0` forces `price ≠ 0`), so total `ℚ` division is a
faithful embedding. -/
def compute_position_size (capital price : ℚ) (config : RiskConfig) :
    Except String PositionSizingResult :=
  let capital_at_risk := capital * config.max_position_size_pct
  let stop_loss_price := price * (1 - config.stop_loss_pct)
  let take_profit_price := price * (1 + config.take_profit_pct)
  let risk_per_unit := price - stop_loss_price
  if risk_per_unit ≤ 0 then
    Except.error "Parametres de stop-loss invalides"
  else
    Except.ok
      { capital_at_risk := capital_at_risk
        position_size := min (capital_at_risk / risk_per_unit) (capital / price)
        stop_loss_price := stop_loss_price
        take_profit_price := take_profit_price }

/-- C1 (counterexample): with `stopLossPct = 1.0`, positive price 100 and
capital 10000, `compute_position_size` does NOT raise: it returns a result
(stop-loss price 0, risk per unit 100, position size 5), refuting the
claim that `stopLossPct = 1.0` raises InvalidRiskParameters. -/
theorem compute_position_size_slp_one_no_error :
    compute_position_size 10000 100
      { max_position_size_pct := 1/20, max_daily_loss_pct := 1/50,
        stop_loss_pct := 1, take_profit_pct := 3/50 } =
    Except.ok
      { capital_at_risk := 500, position_size := 5,
        stop_loss_price := 0, take_profit_price := 106 } := by
  norm_num [compute_position_size, min_def]

/-- C1 (amended): `compute_position_size` raises exactly when
`riskPerUnit = price − stopLossPrice ≤ 0`; since
`riskPerUnit = price · stopLossPct`, for positive price this happens exactly
when `stopLossPct ≤ 0` — not when `stopLossPct ≥ 1`. -/
theorem compute_position_size_error_iff (capital price : ℚ) (config : RiskConfig) :
    (isErr (compute_position_size capital price config) = true ↔
      price - price * (1 - config.stop_loss_pct) ≤ 0) ∧
    (0 < price →
      (isErr (compute_position_size capital price config) = true ↔
        config.stop_loss_pct ≤ 0)) := by
  have hrw : price - price * (1 - config.stop_loss_pct) = price * config.stop_loss_pct := by
    ring
  have hiff : isErr (compute_position_size capital price config) = true ↔
      price - price * (1 - config.stop_loss_pct) ≤ 0 := by
    by_cases h : price - price * (1 - config.stop_loss_pct) ≤ 0
    · simp [compute_position_size, h, isErr]
    · simp [compute_position_size, h, isErr]
  refine ⟨hiff, fun hp => hiff.trans ?_⟩
  rw [hrw]
  constructor
  · intro hle
    rcases mul_nonpos_iff.mp hle with ⟨_, hs⟩ | ⟨hple, _⟩
    · exact hs
    · exact absurd hple (not_le.mpr hp)
  · intro hs
    exact mul_nonpos_of_nonneg_of_nonpos hp.le hs

/-- C1 witness: at `price = 100 > 0` and `stopLossPct = 0` the amended
characterization yields an error. -/
theorem compute_position_size_error_iff_witness :
    isErr (compute_position_size 10000 100
      { max_position_size_pct := 1/20, max_daily_loss_pct := 1/50,
        stop_loss_pct := 0, take_profit_pct := 3/50 }) = true :=
  ((compute_position_size_error_iff 10000 100
      { max_position_size_pct := 1/20, max_daily_loss_pct := 1/50,
        stop_loss_pct := 0, take_profit_pct := 3/50 }).2
    (by norm_num)).mpr (by norm_num)

/-- C2: in the non-error case (`riskPerUnit > 0`), with `capital ≥ 0` and
`price > 0`, `compute_position_size` returns exactly the spec's record:
`capitalAtRisk = capital·maxPositionSizePct`,
`stopLossPrice = price·(1−stopLossPct)`,
`takeProfitPrice = price·(1+takeProfitPct)`, and
`positionSize = min(capitalAtRisk/riskPerUnit, capital/price)`; in
particular `(capital, price, slp, mps) = (10000, 100, 0.03, 0.05)` gives
stop-loss 97, capital at risk 500, and position size 100 (capped by
affordability). -/
theorem compute_position_size_ok (capital price : ℚ) (config : RiskConfig)
    (hcap : 0 ≤ capital) (hp : 0 < price)
    (hrpu : 0 < price - price * (1 - config.stop_loss_pct)) :
    compute_position_size capital price config =
      Except.ok
        { capital_at_risk := capital * config.max_position_size_pct
          position_size :=
            min ((capital * config.max_position_size_pct) /
                   (price - price * (1 - config.stop_loss_pct)))
                (capital / price)
          stop_loss_price := price * (1 - config.stop_loss_pct)
          take_profit_price := price * (1 + config.take_profit_pct) } ∧
    compute_position_size 10000 100
      { max_position_size_pct := 1/20, max_daily_loss_pct := 1/50,
        stop_loss_pct := 3/100, take_profit_pct := 3/50 } =
    Except.ok
      { capital_at_risk := 500, position_size := 100,
        stop_loss_price := 97, take_profit_price := 106 } := by
  constructor
  · simp only [compute_position_size]
    rw [if_neg (not_le.mpr hrpu)]
  · norm_num [compute_position_size, min_def]

/-- C2 witness: the general formula applied at the spec's worked example. -/
theorem compute_position_size_ok_witness :
    compute_position_size 10000 100
      { max_position_size_pct := 1/20, max_daily_loss_pct := 1/50,
        stop_loss_pct := 3/100, take_profit_pct := 3/50 } =
      Except.ok
        { capital_at_risk := 10000 * (1/20)
          position_size :=
            min ((10000 * (1/20)) / ((100 : ℚ) - 100 * (1 - 3/100))) (10000 / 100)
          stop_loss_price := (100 : ℚ) * (1 - 3/100)
          take_profit_price := (100 : ℚ) * (1 + 3/50) } :=
  (compute_position_size_ok 10000 100
      { max_position_size_pct := 1/20, max_daily_loss_pct := 1/50,
        stop_loss_pct := 3/100, take_profit_pct := 3/50 }
      (by norm_num) (by norm_num) (by norm_num)).1

/-- C8: `max_daily_loss_pct` does not influence any output of
`compute_position_size`: two configurations agreeing on the other three
fields give identical results (and raise in the same cases). -/
theorem compute_position_size_ignores_max_daily_loss
    (capital price : ℚ) (c1 c2 : RiskConfig)
    (hmps : c1.max_position_size_pct = c2.max_position_size_pct)
    (hslp : c1.stop_loss_pct = c2.stop_loss_pct)
    (htpp : c1.take_profit_pct = c2.take_profit_pct) :
    compute_position_size capital price c1 = compute_position_size capital price c2 := by
  unfold compute_position_size
  rw [hmps, hslp, htpp]

/-- C8 witness: two concrete configurations differing only in
`max_daily_loss_pct` produce the same result. -/
theorem compute_position_size_ignores_max_daily_loss_witness :
    compute_position_size 10000 100
      { max_position_size_pct := 1/20, max_daily_loss_pct := 1/50,
        stop_loss_pct := 3/100, take_profit_pct := 3/50 } =
    compute_position_size 10000 100
      { max_position_size_pct := 1/20, max_daily_loss_pct := 9/10,
        stop_loss_pct := 3/100, take_profit_pct := 3/50 } :=
  compute_position_size_ignores_max_daily_loss 10000 100 _ _ rfl rfl rfl

/-- Arithmetic mean of a list, as pandas `.mean()` computes it over the
valid observations of a window (total `ℚ` division: the callers below
only apply it to windows of positive length). -/
def listMean (xs : List ℚ) : ℚ := xs.sum / xs.length

/-- The trailing window of length `window` that ends at position `i`
(0-based) of the series. -/
def trailingSlice (xs : List ℚ) (window i : ℕ) : List ℚ :=
  (xs.take (i + 1)).drop (i + 1 - window)

/-- From `technical.py`, `moving_average`:
`df["close"].rolling(window=window, min_periods=window).mean()` read at
position `i`.  `none` models pandas `NaN` (fewer than `window` observations
up to and including `i`); positions outside the series, and the `window = 0`
case that pandas rejects, are also `none`. -/
def moving_average (closes : List ℚ) (window i : ℕ) : Option ℚ :=
  if 1 ≤ window ∧ window ≤ i + 1 ∧ i < closes.length then
    some (listMean (trailingSlice closes window i))
  else
    none

/-- C7: `moving_average` is undefined at every position with fewer than
`window` points up to and including itself, and at every other position it
equals the exact arithmetic mean of the trailing `window` closes. -/
theorem moving_average_spec (closes : List ℚ) (window i : ℕ)
    (hw : 1 ≤ window) (hi : i < closes.length) :
    (i + 1 < window → moving_average closes window i = none) ∧
    (window ≤ i + 1 → moving_average closes window i =
      some (((closes.drop (i + 1 - window)).take window).sum / window)) := by
  constructor
  · intro hlt
    unfold moving_average
    rw [if_neg]
    rintro ⟨-, hle, -⟩
    exact absurd hlt (not_lt.mpr hle)
  · intro hle
    unfold moving_average
    rw [if_pos ⟨hw, hle, hi⟩]
    have hslice : trailingSlice closes window i =
        (closes.drop (i + 1 - window)).take window := by
      unfold trailingSlice
      rw [List.drop_take]
      congr 1
      omega
    rw [hslice]
    have hlen : ((closes.drop (i + 1 - window)).take window).length = window := by
      rw [List.length_take, List.length_drop]
      omega
    unfold listMean
    rw [hlen]

/-- C7 witness: on `[1,2,3,4]` with window 2 at position 2 the mean is 5/2. -/
theorem moving_average_spec_witness :
    moving_average [1, 2, 3, 4] 2 2 = some ((5 : ℚ) / 2) := by
  have h := (moving_average_spec [1, 2, 3, 4] 2 2 (by norm_num) (by norm_num)).2
    (by norm_num)
  rw [h]
  norm_num

/-- Up-move at position `j` of the series: `delta.clip(lower=0)` where
`delta = df["close"].diff()`, i.e. `max(close[j] - close[j-1], 0)`.
Meaningful only for `j ≥ 1` (at `j = 0` pandas `diff` is `NaN`); the
rolling means below only read positions `j ≥ 1`. -/
def upMove (closes : List ℚ) (j : ℕ) : ℚ :=
  max (closes.getD j 0 - closes.getD (j - 1) 0) 0

/-- Down-move at position `j`: `-delta.clip(upper=0)`, i.e.
`max(close[j-1] - close[j], 0)`. -/
def downMove (closes : List ℚ) (j : ℕ) : ℚ :=
  max (closes.getD (j - 1) 0 - closes.getD j 0) 0

/-- `up.rolling(window, min_periods=window).mean()` at position `i`:
defined iff the window of deltas ending at `i` contains no `NaN`, i.e.
all its positions are ≥ 1 and inside the series — `window ≤ i < length`
(and `window ≥ 1`). -/
def upMean (closes : List ℚ) (window i : ℕ) : Option ℚ :=
  if 1 ≤ window ∧ window ≤ i ∧ i < closes.length then
    some (((List.range window).map (fun k => upMove closes (i - k))).sum / window)
  else
    none

/-- `down.rolling(window, min_periods=window).mean()` at position `i`. -/
def downMean (closes : List ℚ) (window i : ℕ) : Option ℚ :=
  if 1 ≤ window ∧ window ≤ i ∧ i < closes.length then
    some (((List.range window).map (fun k => downMove closes (i - k))).sum / window)
  else
    none

/-- From `technical.py`, `relative_strength_index`, read at position `i`:
`rs = roll_up / roll_down; rsi = 100 - 100/(1+rs)` then `.fillna(50)`.
The branch structure spells out IEEE float semantics over exact rationals:
with `meanDown = 0` and `meanUp > 0`, `rs = +inf` so `rsi = 100`; with
`meanDown = meanUp = 0`, `rs = 0/0 = NaN` so `fillna` yields 50; where the
rolling means are undefined (`NaN`), `fillna` also yields 50.  (`meanUp` is
a mean of clipped values, hence never negative.) -/
def relative_strength_index (closes : List ℚ) (window i : ℕ) : ℚ :=
  match upMean closes window i, downMean closes window i with
  | some mu, some md =>
      if md = 0 then (if mu = 0 then 50 else 100)
      else 100 - 100 / (1 + mu / md)
  | _, _ => 50

/-- C4: RSI edge cases.  Wherever the trailing mean of down-moves is zero:
if the mean of up-moves is positive, RSI is 100, and if it is zero
(constant price over the window), RSI is 50; wherever the rolling means are
undefined (fewer than `window+1` points of history), RSI is 50 — the
function is total over `ℚ`, never a `NaN`. -/
theorem relative_strength_index_edge_cases (closes : List ℚ) (window i : ℕ) :
    (∀ mu md : ℚ, upMean closes window i = some mu →
      downMean closes window i = some md → md = 0 →
      ((0 < mu → relative_strength_index closes window i = 100) ∧
       (mu = 0 → relative_strength_index closes window i = 50))) ∧
    (upMean closes window i = none → relative_strength_index closes window i = 50) := by
  constructor
  · intro mu md hmu hmd hmd0
    unfold relative_strength_index
    rw [hmu, hmd]
    subst hmd0
    constructor
    · intro hpos
      simp [ne_of_gt hpos]
    · intro hmu0
      subst hmu0
      simp
  · intro hnone
    unfold relative_strength_index
    rw [hnone]

/-- C4 witness: on the strictly rising series `[1,2,3]` with window 2 at
position 2 both rolling means are defined, the down-mean is 0 and the
up-mean is 1, so RSI is 100; and on the same series at position 1 the
means are undefined (only one delta exists), so RSI is 50. -/
theorem relative_strength_index_edge_cases_witness :
    relative_strength_index [1, 2, 3] 2 2 = 100 ∧
    relative_strength_index [1, 2, 3] 2 1 = 50 := by
  constructor
  · exact (((relative_strength_index_edge_cases [1, 2, 3] 2 2).1 1 0
      (by norm_num [upMean, upMove, List.range_succ])
      (by norm_num [downMean, downMove, List.range_succ]) rfl).1 (by norm_num))
  · exact (relative_strength_index_edge_cases [1, 2, 3] 2 1).2
      (by norm_num [upMean])

/-- `df["close"].rolling(window=window, min_periods=window).std()` at
position `i` (pandas default `ddof = 1`).  The square root applied to the
sample variance is the one operation with no exact rational counterpart, so
it is kept abstract as the parameter `rsqrt`; every theorem below holds for
an arbitrary `rsqrt`.  pandas yields `NaN` when the number of observations
is ≤ `ddof`, hence the `2 ≤ window` guard. -/
def rolling_std (rsqrt : ℚ → ℚ) (closes : List ℚ) (window i : ℕ) : Option ℚ :=
  if 2 ≤ window ∧ window ≤ i + 1 ∧ i < closes.length then
    let xs := trailingSlice closes window i
    let m := listMean xs
    some (rsqrt ((xs.map (fun x => (x - m) ^ 2)).sum / (window - 1)))
  else
    none

/-- From `technical.py`, `bollinger_bands` read at position `i`: the triple
`(ma, upper, lower)` with `upper = ma + num_std·std` and
`lower = ma - num_std·std`; `none` where either rolling statistic is `NaN`
(for `window ≥ 2` the two are `NaN` at exactly the same positions). -/
def bollinger_bands (rsqrt : ℚ → ℚ) (closes : List ℚ) (window : ℕ)
    (num_std : ℚ) (i : ℕ) : Option (ℚ × ℚ × ℚ) :=
  match moving_average closes window i, rolling_std rsqrt closes window i with
  | some ma, some std => some (ma, ma + num_std * std, ma - num_std * std)
  | _, _ => none

/-- The trend sub-score of `score_technical`: `1.0 if ma_short > ma_long
else 0.0`, skipped (`none`) when either 20- or 50-period MA at the last row
is `NaN`. -/
def trend_sub (closes : List ℚ) : Option ℚ :=
  match moving_average closes 20 (closes.length - 1),
        moving_average closes 50 (closes.length - 1) with
  | some ma_short, some ma_long => some (if ma_long < ma_short then 1 else 0)
  | _, _ => none

/-- The RSI-band sub-score of `score_technical`: 0.5 on RSI∈[40,60], 0.8
below 30, 0.2 above 70, 0.6 otherwise.  The guarding `pd.notna(rsi)` in the
source is always true because `relative_strength_index` ends in
`.fillna(50)`, so this sub-score is total. -/
def rsi_sub (closes : List ℚ) : ℚ :=
  let r := relative_strength_index closes 14 (closes.length - 1)
  if 40 ≤ r ∧ r ≤ 60 then 1/2
  else if r < 30 then 4/5
  else if 70 < r then 1/5
  else 3/5

/-- The Bollinger-band-position sub-score of `score_technical`:
`clamp(1 - (price - lower)/(upper - lower), 0, 1)` at the latest close,
skipped (`none`) when the band is `NaN` or has zero width. -/
def band_sub (rsqrt : ℚ → ℚ) (closes : List ℚ) : Option ℚ :=
  match bollinger_bands rsqrt closes 20 2 (closes.length - 1) with
  | some (_, upper, lower) =>
      if upper = lower then none
      else
        let price := closes.getD (closes.length - 1) 0
        some (max 0 (min 1 (1 - (price - lower) / (upper - lower))))
  | none => none

/-- The list of computed sub-scores of `score_technical`; its sum is the
source's `score` accumulator and its length the `weight` accumulator. -/
def technical_sub_scores (rsqrt : ℚ → ℚ) (closes : List ℚ) : List ℚ :=
  (trend_sub closes).toList ++ [rsi_sub closes] ++ (band_sub rsqrt closes).toList

/-- From `technical.py`, `score_technical`: 0.5 on an empty frame; otherwise
the mean of the computed sub-scores clamped to [0,1], with a 0.5 fallback
when no sub-score was computed (`weight == 0`). -/
def score_technical (rsqrt : ℚ → ℚ) (closes : List ℚ) : ℚ :=
  if closes = [] then 1/2
  else
    let subs := technical_sub_scores rsqrt closes
    if subs.length = 0 then 1/2
    else max 0 (min 1 (subs.sum / subs.length))

/-- C9: for a non-empty series the `weight == 0` fallback of
`score_technical` is dead code: the RSI sub-score always contributes (the
`fillna(50)` makes RSI total), so at least one sub-score is computed; and
any non-empty series of fewer than 15 rows scores exactly 0.5 — the
RSI-neutral sub-score alone. -/
theorem score_technical_no_fallback (rsqrt : ℚ → ℚ) (closes : List ℚ)
    (hne : closes ≠ []) :
    1 ≤ (technical_sub_scores rsqrt closes).length ∧
    (closes.length < 15 → score_technical rsqrt closes = 1/2) := by
  have hlen : 1 ≤ (technical_sub_scores rsqrt closes).length := by
    unfold technical_sub_scores
    simp only [List.length_append, List.length_singleton]
    omega
  refine ⟨hlen, fun hshort => ?_⟩
  have hlenpos : 0 < closes.length := List.length_pos.mpr hne
  have hma20 : moving_average closes 20 (closes.length - 1) = none := by
    unfold moving_average
    rw [if_neg]
    rintro ⟨-, hle, -⟩
    omega
  have hstd : rolling_std rsqrt closes 20 (closes.length - 1) = none := by
    unfold rolling_std
    rw [if_neg]
    rintro ⟨-, hle, -⟩
    omega
  have htrend : trend_sub closes = none := by
    unfold trend_sub
    rw [hma20]
  have hband : band_sub rsqrt closes = none := by
    unfold band_sub bollinger_bands
    rw [hma20]
  have hup : upMean closes 14 (closes.length - 1) = none := by
    unfold upMean
    rw [if_neg]
    rintro ⟨-, hle, -⟩
    omega
  have hrsi : relative_strength_index closes 14 (closes.length - 1) = 50 := by
    unfold relative_strength_index
    rw [hup]
  have hrsisub : rsi_sub closes = 1/2 := by
    unfold rsi_sub
    rw [hrsi]
    norm_num
  unfold score_technical
  rw [if_neg hne]
  unfold technical_sub_scores
  rw [htrend, hband, hrsisub]
  norm_num

/-- C9 witness: the three-row series `[1,2,3]` (with a trivial root
function) scores exactly 0.5 and has one computed sub-score. -/
theorem score_technical_no_fallback_witness :
    1 ≤ (technical_sub_scores (fun _ => 0) [1, 2, 3]).length ∧
    score_technical (fun _ => 0) [1, 2, 3] = 1/2 := by
  have h := score_technical_no_fallback (fun _ => 0) [1, 2, 3] (by simp)
  exact ⟨h.1, h.2 (by norm_num)⟩

/-- From `fundamental.py`, dataclass `FundamentalSnapshot`: a symbol and
five independently optional metrics (source field names `pe_ratio`,
`peg_ratio`, `debt_to_equity`, `revenue_growth_pct`, `earnings_growth_pct`;
the first two are shortened to `pe`/`peg` here). -/
structure FundamentalSnapshot where
  symbol : String
  pe : Option ℚ
  peg : Option ℚ
  debt_to_equity : Option ℚ
  revenue_growth_pct : Option ℚ
  earnings_growth_pct : Option ℚ
  deriving DecidableEq

/-- The local helper `add` of `score_fundamentals`: if the metric is
present, add `max(0, 1 - |value - ideal|/tolerance)` to the running score
and 1 to the running weight. -/
def addMetric (acc : ℚ × ℚ) (metric : Option ℚ) (ideal tolerance : ℚ) : ℚ × ℚ :=
  match metric with
  | none => acc
  | some m => (acc.1 + max 0 (1 - |m - ideal| / tolerance), acc.2 + 1)

/-- The growth-metric branch of `score_fundamentals`: if present, add
`min(1, growth/20)` (no lower floor) and 1 to the weight. -/
def addGrowth (acc : ℚ × ℚ) (metric : Option ℚ) : ℚ × ℚ :=
  match metric with
  | none => acc
  | some g => (acc.1 + min 1 (g / 20), acc.2 + 1)

/-- From `fundamental.py`, `score_fundamentals`: accumulate the
contributions of the present metrics in source order (PE ideal 20 tol 15,
PEG ideal 1 tol 1, debt/equity ideal 0.5 tol 0.7, then the two growth
metrics), return 0.5 if nothing is present, else clamp the average
to [0,1]. -/
def score_fundamentals (s : FundamentalSnapshot) : ℚ :=
  let acc :=
    addGrowth
      (addGrowth
        (addMetric
          (addMetric
            (addMetric (0, 0) s.pe 20 15)
            s.peg 1 1)
          s.debt_to_equity (1/2) (7/10))
        s.revenue_growth_pct)
      s.earnings_growth_pct
  if acc.2 = 0 then 1/2 else max 0 (min 1 (acc.1 / acc.2))

/-- The per-metric contributions of a snapshot as the spec describes them,
one list element per present metric. -/
def fundContribs (s : FundamentalSnapshot) : List ℚ :=
  (s.pe.map fun m => max 0 (1 - |m - 20| / 15)).toList ++
  (s.peg.map fun m => max 0 (1 - |m - 1| / 1)).toList ++
  (s.debt_to_equity.map fun m => max 0 (1 - |m - 1/2| / (7/10))).toList ++
  (s.revenue_growth_pct.map fun g => min 1 (g / 20)).toList ++
  (s.earnings_growth_pct.map fun g => min 1 (g / 20)).toList

/-- Score contribution of one `add` step. -/
theorem addMetric_fst (acc : ℚ × ℚ) (metric : Option ℚ) (ideal tolerance : ℚ) :
    (addMetric acc metric ideal tolerance).1 =
      acc.1 + ((metric.map fun m => max 0 (1 - |m - ideal| / tolerance)).toList).sum := by
  cases metric <;> simp [addMetric]

/-- Weight contribution of one `add` step. -/
theorem addMetric_snd (acc : ℚ × ℚ) (metric : Option ℚ) (ideal tolerance : ℚ) :
    (addMetric acc metric ideal tolerance).2 =
      acc.2 + (((metric.map fun m => max 0 (1 - |m - ideal| / tolerance)).toList).length : ℚ) := by
  cases metric <;> simp [addMetric]

/-- Score contribution of one growth step. -/
theorem addGrowth_fst (acc : ℚ × ℚ) (metric : Option ℚ) :
    (addGrowth acc metric).1 =
      acc.1 + ((metric.map fun g => min 1 (g / 20)).toList).sum := by
  cases metric <;> simp [addGrowth]

/-- Weight contribution of one growth step. -/
theorem addGrowth_snd (acc : ℚ × ℚ) (metric : Option ℚ) :
    (addGrowth acc metric).2 =
      acc.2 + (((metric.map fun g => min 1 (g / 20)).toList).length : ℚ) := by
  cases metric <;> simp [addGrowth]

/-- C5: `score_fundamentals` equals the spec's formula — the described
contributions of the present metrics, averaged over their count, 0.5 if no
metric is present, clamped to [0,1] — and on a snapshot whose only present
field is `revenueGrowthPct = 20` it returns exactly 1, while an all-absent
snapshot returns exactly 0.5. -/
theorem score_fundamentals_spec (s : FundamentalSnapshot) :
    score_fundamentals s =
      (if fundContribs s = [] then 1/2
       else max 0 (min 1 ((fundContribs s).sum / (fundContribs s).length))) ∧
    score_fundamentals
      { symbol := "X", pe := none, peg := none, debt_to_equity := none,
        revenue_growth_pct := some 20, earnings_growth_pct := none } = 1 ∧
    score_fundamentals
      { symbol := "X", pe := none, peg := none, debt_to_equity := none,
        revenue_growth_pct := none, earnings_growth_pct := none } = 1/2 := by
  refine ⟨?_, by norm_num [score_fundamentals, addMetric, addGrowth], by norm_num [score_fundamentals, addMetric, addGrowth]⟩
  have hsum :
      (addGrowth (addGrowth (addMetric (addMetric (addMetric ((0 : ℚ), (0 : ℚ))
          s.pe 20 15) s.peg 1 1) s.debt_to_equity (1/2) (7/10))
          s.revenue_growth_pct) s.earnings_growth_pct).1 = (fundContribs s).sum := by
    rw [addGrowth_fst, addGrowth_fst, addMetric_fst, addMetric_fst, addMetric_fst]
    simp [fundContribs]
    ring
  have hcount :
      (addGrowth (addGrowth (addMetric (addMetric (addMetric ((0 : ℚ), (0 : ℚ))
          s.pe 20 15) s.peg 1 1) s.debt_to_equity (1/2) (7/10))
          s.revenue_growth_pct) s.earnings_growth_pct).2 = ((fundContribs s).length : ℚ) := by
    rw [addGrowth_snd, addGrowth_snd, addMetric_snd, addMetric_snd, addMetric_snd]
    simp [fundContribs]
    ring
  simp only [score_fundamentals]
  rw [hsum, hcount]
  have hzero : (((fundContribs s).length : ℚ) = 0) ↔ fundContribs s = [] := by
    rw [Nat.cast_eq_zero, List.length_eq_zero]
  by_cases hnil : fundContribs s = []
  · rw [if_pos (hzero.mpr hnil), if_pos hnil]
  · rw [if_neg (fun h => hnil (hzero.mp h)), if_neg hnil]

/-- From `sentiment.py`, dataclass `NewsItem`. -/
structure NewsItem where
  title : String
  summary : String
  sentiment : ℚ
  source : String
  url : String
  deriving DecidableEq

/-- From `sentiment.py`, `aggregate_sentiment`: 0.5 on an empty collection,
otherwise the (unclamped) arithmetic mean of `(s + 1)/2` over the items. -/
def aggregate_sentiment (items : List NewsItem) : ℚ :=
  if items = [] then 1/2
  else
    let normalized := items.map (fun item => (item.sentiment + 1) / 2)
    normalized.sum / normalized.length

/-- C6: `aggregate_sentiment` returns exactly 0.5 on the empty collection
and the unclamped mean of the mapped sentiments otherwise; a single item of
sentiment 1 yields 1 and a single item of sentiment −1 yields 0. -/
theorem aggregate_sentiment_spec :
    aggregate_sentiment [] = 1/2 ∧
    (∀ items : List NewsItem, items ≠ [] →
      aggregate_sentiment items =
        (items.map (fun item => (item.sentiment + 1) / 2)).sum / items.length) ∧
    (∀ item : NewsItem, item.sentiment = 1 → aggregate_sentiment [item] = 1) ∧
    (∀ item : NewsItem, item.sentiment = -1 → aggregate_sentiment [item] = 0) := by
  refine ⟨rfl, ?_, ?_, ?_⟩
  · intro items hne
    simp only [aggregate_sentiment]
    rw [if_neg hne, List.length_map]
  · intro item h1
    norm_num [aggregate_sentiment, h1]
  · intro item h1
    norm_num [aggregate_sentiment, h1]

/-- C6 witness: concrete single-item collections with sentiments 1 and −1. -/
theorem aggregate_sentiment_spec_witness :
    aggregate_sentiment [{ title := "t", summary := "s", sentiment := 1,
                           source := "x", url := "u" }] = 1 ∧
    aggregate_sentiment [{ title := "t", summary := "s", sentiment := -1,
                           source := "x", url := "u" }] = 0 :=
  ⟨aggregate_sentiment_spec.2.2.1 _ rfl, aggregate_sentiment_spec.2.2.2 _ rfl⟩

/-- From `config.py`, class `WeightConfig`: the three composite weights. -/
structure WeightConfig where
  technical : ℚ
  fundamental : ℚ
  sentiment : ℚ
  deriving DecidableEq

/-- From `config.py`, the `WeightConfig` validator `_ensure_total` on the
`sentiment` field: with `total = v + technical + fundamental`, raise when
`abs(total - 1.0) > 1e-6`, otherwise return `v`. -/
def WeightConfig.ensure_total (v technical fundamental : ℚ) : Except String ℚ :=
  if 1/1000000 < |v + technical + fundamental - 1| then
    Except.error "La somme des ponderations doit etre egale a 1.0"
  else
    Except.ok v

/-- From `config.py`, class `AppConfig`, restricted to the fields the
computational core reads (`weights` for the scoring engine and `risk` for
the position sizer; notifications, API keys and provider settings are I/O
plumbing never consumed by the core). -/
structure AppConfig where
  weights : WeightConfig
  risk : RiskConfig
  deriving DecidableEq

/-- From `scoring.py`, dataclass `AnalysisResult`. -/
structure AnalysisResult where
  technical_score : ℚ
  fundamental_score : ℚ
  sentiment_score : ℚ
  composite_score : ℚ
  deriving DecidableEq

/-- From `scoring.py`, `compute_scores`: the three component scores and
their weighted linear combination, with no validation of the weights. -/
def compute_scores (rsqrt : ℚ → ℚ) (config : AppConfig) (prices : List ℚ)
    (fundamentals : FundamentalSnapshot) (news : List NewsItem) : AnalysisResult :=
  let technical := score_technical rsqrt prices
  let fundamental := score_fundamentals fundamentals
  let sentiment := aggregate_sentiment news
  let weights := config.weights
  let composite :=
    technical * weights.technical + fundamental * weights.fundamental +
      sentiment * weights.sentiment
  { technical_score := technical
    fundamental_score := fundamental
    sentiment_score := sentiment
    composite_score := composite }

/-- `score_technical` always lands in [0,1]: every branch is 0.5 or a
clamped mean. -/
theorem score_technical_bounds (rsqrt : ℚ → ℚ) (closes : List ℚ) :
    0 ≤ score_technical rsqrt closes ∧ score_technical rsqrt closes ≤ 1 := by
  simp only [score_technical]
  split_ifs
  · norm_num
  · norm_num
  · exact ⟨le_max_left _ _, max_le (by norm_num) (min_le_left _ _)⟩

/-- `score_fundamentals` always lands in [0,1]. -/
theorem score_fundamentals_bounds (s : FundamentalSnapshot) :
    0 ≤ score_fundamentals s ∧ score_fundamentals s ≤ 1 := by
  simp only [score_fundamentals]
  split_ifs
  · norm_num
  · exact ⟨le_max_left _ _, max_le (by norm_num) (min_le_left _ _)⟩

/-- `aggregate_sentiment` lands in [0,1] whenever every item's sentiment
respects the data-model contract `s ∈ [-1,1]`. -/
theorem aggregate_sentiment_bounds (items : List NewsItem)
    (h : ∀ item ∈ items, -1 ≤ item.sentiment ∧ item.sentiment ≤ 1) :
    0 ≤ aggregate_sentiment items ∧ aggregate_sentiment items ≤ 1 := by
  simp only [aggregate_sentiment]
  split_ifs with hnil
  · norm_num
  · set l := items.map (fun item => (item.sentiment + 1) / 2) with hl
    have hmem : ∀ x ∈ l, 0 ≤ x ∧ x ≤ 1 := by
      intro x hx
      rw [hl, List.mem_map] at hx
      obtain ⟨item, hit, rfl⟩ := hx
      obtain ⟨h1, h2⟩ := h item hit
      constructor <;> linarith
    have hsum0 : 0 ≤ l.sum := List.sum_nonneg (fun x hx => (hmem x hx).1)
    have hsumle : l.sum ≤ (l.length : ℚ) := by
      have := List.sum_le_card_nsmul l 1 (fun x hx => (hmem x hx).2)
      simpa using this
    have hlenpos : 0 < (l.length : ℚ) := by
      have hne : l ≠ [] := by
        rw [hl]
        simpa using hnil
      exact_mod_cast List.length_pos.mpr hne
    exact ⟨div_nonneg hsum0 hlenpos.le, (div_le_one hlenpos).mpr hsumle⟩

/-- C3: for nonnegative weights summing to 1 and news sentiments in the
contractual range [-1,1], the composite score of `compute_scores` equals
`technical·w_t + fundamental·w_f + sentiment·w_s` over the three computed
component scores (each themselves in [0,1]) and lies in [0,1]. -/
theorem compute_scores_composite_in_unit_interval (rsqrt : ℚ → ℚ)
    (config : AppConfig) (prices : List ℚ) (fundamentals : FundamentalSnapshot)
    (news : List NewsItem)
    (hwt : 0 ≤ config.weights.technical) (hwf : 0 ≤ config.weights.fundamental)
    (hws : 0 ≤ config.weights.sentiment)
    (hsum : config.weights.technical + config.weights.fundamental +
      config.weights.sentiment = 1)
    (hnews : ∀ item ∈ news, -1 ≤ item.sentiment ∧ item.sentiment ≤ 1) :
    (compute_scores rsqrt config prices fundamentals news).composite_score =
      (compute_scores rsqrt config prices fundamentals news).technical_score *
        config.weights.technical +
      (compute_scores rsqrt config prices fundamentals news).fundamental_score *
        config.weights.fundamental +
      (compute_scores rsqrt config prices fundamentals news).sentiment_score *
        config.weights.sentiment ∧
    0 ≤ (compute_scores rsqrt config prices fundamentals news).composite_score ∧
    (compute_scores rsqrt config prices fundamentals news).composite_score ≤ 1 := by
  obtain ⟨ht0, ht1⟩ := score_technical_bounds rsqrt prices
  obtain ⟨hf0, hf1⟩ := score_fundamentals_bounds fundamentals
  obtain ⟨hs0, hs1⟩ := aggregate_sentiment_bounds news hnews
  have hc : (compute_scores rsqrt config prices fundamentals news).composite_score =
      score_technical rsqrt prices * config.weights.technical +
      score_fundamentals fundamentals * config.weights.fundamental +
      aggregate_sentiment news * config.weights.sentiment := rfl
  refine ⟨rfl, ?_, ?_⟩
  · rw [hc]
    have h1 := mul_nonneg ht0 hwt
    have h2 := mul_nonneg hf0 hwf
    have h3 := mul_nonneg hs0 hws
    linarith
  · rw [hc]
    have h1 : score_technical rsqrt prices * config.weights.technical ≤
        config.weights.technical := mul_le_of_le_one_left hwt ht1
    have h2 : score_fundamentals fundamentals * config.weights.fundamental ≤
        config.weights.fundamental := mul_le_of_le_one_left hwf hf1
    have h3 : aggregate_sentiment news * config.weights.sentiment ≤
        config.weights.sentiment := mul_le_of_le_one_left hws hs1
    linarith

/-- C3 witness: the default weight triple (0.6, 0.25, 0.15) on fully
degraded inputs gives a composite of 0.5, inside [0,1]. -/
theorem compute_scores_composite_in_unit_interval_witness :
    0 ≤ (compute_scores (fun _ => 0)
          { weights := { technical := 3/5, fundamental := 1/4, sentiment := 3/20 },
            risk := { max_position_size_pct := 1/20, max_daily_loss_pct := 1/50,
                      stop_loss_pct := 3/100, take_profit_pct := 3/50 } }
          [] { symbol := "X", pe := none, peg := none, debt_to_equity := none,
               revenue_growth_pct := none, earnings_growth_pct := none }
          []).composite_score ∧
    (compute_scores (fun _ => 0)
          { weights := { technical := 3/5, fundamental := 1/4, sentiment := 3/20 },
            risk := { max_position_size_pct := 1/20, max_daily_loss_pct := 1/50,
                      stop_loss_pct := 3/100, take_profit_pct := 3/50 } }
          [] { symbol := "X", pe := none, peg := none, debt_to_equity := none,
               revenue_growth_pct := none, earnings_growth_pct := none }
          []).composite_score ≤ 1 :=
  (compute_scores_composite_in_unit_interval (fun _ => 0)
      { weights := { technical := 3/5, fundamental := 1/4, sentiment := 3/20 },
        risk := { max_position_size_pct := 1/20, max_daily_loss_pct := 1/50,
                  stop_loss_pct := 3/100, take_profit_pct := 3/50 } }
      [] { symbol := "X", pe := none, peg := none, debt_to_equity := none,
           revenue_growth_pct := none, earnings_growth_pct := none }
      [] (by norm_num) (by norm_num) (by norm_num) (by norm_num)
      (fun item hit => absurd hit (List.not_mem_nil item))).2

/-- C10: `compute_scores` performs no weight validation: for every
configuration — including weights that do not sum to 1 — it returns the
raw weighted sum of the three component scores and never raises; the
sum-to-1 check exists only in the configuration loader's validator
`_ensure_total`, which does raise on weights (0.5, 0.5, 0.5), while
`compute_scores` on those very weights returns composite 3/4. -/
theorem compute_scores_no_weight_validation :
    (∀ (rsqrt : ℚ → ℚ) (config : AppConfig) (prices : List ℚ)
        (fundamentals : FundamentalSnapshot) (news : List NewsItem),
      compute_scores rsqrt config prices fundamentals news =
        { technical_score := score_technical rsqrt prices
          fundamental_score := score_fundamentals fundamentals
          sentiment_score := aggregate_sentiment news
          composite_score :=
            score_technical rsqrt prices * config.weights.technical +
            score_fundamentals fundamentals * config.weights.fundamental +
            aggregate_sentiment news * config.weights.sentiment }) ∧
    (∀ v t f : ℚ,
      isErr (WeightConfig.ensure_total v t f) = true ↔ 1/1000000 < |v + t + f - 1|) ∧
    isErr (WeightConfig.ensure_total (1/2) (1/2) (1/2)) = true ∧
    (compute_scores (fun _ => 0)
        { weights := { technical := 1/2, fundamental := 1/2, sentiment := 1/2 },
          risk := { max_position_size_pct := 1/20, max_daily_loss_pct := 1/50,
                    stop_loss_pct := 3/100, take_profit_pct := 3/50 } }
        [] { symbol := "X", pe := none, peg := none, debt_to_equity := none,
             revenue_growth_pct := none, earnings_growth_pct := none }
        []).composite_score = 3/4 := by
  refine ⟨fun _ _ _ _ _ => rfl, ?_, ?_, ?_⟩
  · intro v t f
    by_cases h : 1/1000000 < |v + t + f - 1|
    · simp only [WeightConfig.ensure_total]
      rw [if_pos h]
      simpa [isErr] using h
    · simp only [WeightConfig.ensure_total]
      rw [if_neg h]
      simpa [isErr] using h
  · have h : (1 : ℚ)/1000000 < |(1 : ℚ)/2 + 1/2 + 1/2 - 1| := by
      have heq : ((1 : ℚ)/2 + 1/2 + 1/2 - 1) = 1/2 := by ring
      rw [heq, abs_of_pos (by norm_num : (0 : ℚ) < 1/2)]
      norm_num
    simp only [WeightConfig.ensure_total]
    rw [if_pos h]
    rfl
  · norm_num [compute_scores, score_technical, score_fundamentals,
      aggregate_sentiment, addMetric, addGrowth]
